import Mathlib

/-!
Verification of the deterministic rule-based logic of the banking
customer-intelligence dashboard: the ML-engine's rule-based fallback
segmentation and its error-handling fallbacks, the data-seeder's
closed-form scoring formulas, the batch risk-analysis cap, and the
seeder's array chunking helper.

JavaScript numbers are modelled as rationals: every formula below uses
only +, -, ×, /, comparisons, floor and clamping, and at the magnitudes
the program manipulates these agree with exact arithmetic (the one place
where double rounding matters, `Math.ceil(n * 0.2)`, is analysed at its
definition).  The nondeterministic draws (`Math.random()`) are modelled
as explicit parameters ranging over the interval the draw lives in, and
the hosted-AI round trips are modelled as `Except`-valued inputs, where
`Except.error` stands for the call throwing.
-/

namespace BankIntel

/-- The `CustomerData` record of the ML-engine module (identity field plus
the numeric profile; numeric fields are rationals, see the file header). -/
structure CustomerData where
  id : String
  accountBalance : ℚ
  creditScore : ℚ
  annualIncome : ℚ
  transactionCount : ℚ
  avgMonthlyBalance : ℚ
  riskScore : ℚ
  customerLifetimeValue : ℚ
  accountAge : ℚ
  lastTransactionDays : ℚ
deriving DecidableEq, Repr

/-- The `characteristics` block of a `SegmentationResult`. -/
structure SegmentCharacteristics where
  avgBalance : ℚ
  avgIncome : ℚ
  avgRiskScore : ℚ
  avgCLV : ℚ
  size : ℕ
deriving DecidableEq, Repr

/-- The `SegmentationResult` record.  The `segmentId` field is omitted: the
source builds it from `Date.now()` and `Math.random()`, and no claim
mentions it. -/
structure SegmentationResult where
  segmentName : String
  customers : List String
  characteristics : SegmentCharacteristics
  insights : List String
deriving DecidableEq, Repr

/-- The order realised by `[...customers].sort((a, b) => b.accountBalance -
a.accountBalance)`.  ECMAScript guarantees `Array.prototype.sort` is stable,
and a stable sort by a comparator is exactly the sort of (original index,
value) pairs by the lexicographic order: comparator first, original
position second. -/
def balanceBefore (a b : ℕ × CustomerData) : Prop :=
  b.2.accountBalance < a.2.accountBalance ∨
    (a.2.accountBalance = b.2.accountBalance ∧ a.1 ≤ b.1)

instance : DecidableRel balanceBefore := fun _ _ =>
  inferInstanceAs (Decidable (_ ∨ _ ∧ _))

instance : IsTotal (ℕ × CustomerData) balanceBefore where
  total a b := by
    unfold balanceBefore
    rcases lt_trichotomy a.2.accountBalance b.2.accountBalance with h | h | h
    · exact Or.inr (Or.inl h)
    · rcases Nat.le_total a.1 b.1 with hi | hi
      · exact Or.inl (Or.inr ⟨h, hi⟩)
      · exact Or.inr (Or.inr ⟨h.symm, hi⟩)
    · exact Or.inl (Or.inl h)

instance : IsTrans (ℕ × CustomerData) balanceBefore where
  trans a b c hab hbc := by
    unfold balanceBefore at hab hbc ⊢
    rcases hab with h1 | ⟨e1, i1⟩ <;> rcases hbc with h2 | ⟨e2, i2⟩
    · exact Or.inl (lt_trans h2 h1)
    · exact Or.inl (by rw [← e2]; exact h1)
    · exact Or.inl (by rw [e1]; exact h2)
    · exact Or.inr ⟨e1.trans e2, le_trans i1 i2⟩

/-- The sorted copy `[...customers].sort((a, b) => b.accountBalance -
a.accountBalance)`: stable sort by descending balance. -/
def sortedByBalance (customers : List CustomerData) : List CustomerData :=
  ((customers.enum).insertionSort balanceBefore).map Prod.snd

/-- `Math.ceil(customers.length * 0.2)`.  The double 0.2 equals
(1/5)·(1 + 2⁻⁵⁴), so for every length n < 2⁵³ the computed product rounds
to a value whose ceiling is ⌈n/5⌉, which in natural-number arithmetic is
(n + 4) / 5. -/
def highValueCount (n : ℕ) : ℕ := (n + 4) / 5

/-- The mean-characteristics block built with `reduce(...) / length`.
(Rational division by zero yields 0 where JavaScript yields NaN; the only
way to reach it is the degenerate high-value segment of an empty input,
outside every claim.) -/
def mkCharacteristics (l : List CustomerData) : SegmentCharacteristics where
  avgBalance := (l.map (·.accountBalance)).sum / l.length
  avgIncome := (l.map (·.annualIncome)).sum / l.length
  avgRiskScore := (l.map (·.riskScore)).sum / l.length
  avgCLV := (l.map (·.customerLifetimeValue)).sum / l.length
  size := l.length

/-- The members of the high-value segment: the first
`Math.ceil(length * 0.2)` entries of the balance-sorted copy. -/
def highValueCustomersOf (customers : List CustomerData) : List CustomerData :=
  (sortedByBalance customers).take (highValueCount customers.length)

/-- The young-professionals filter:
`c.accountAge < 36 && c.annualIncome > 40000 && c.annualIncome < 100000`. -/
def youngProfessionalsOf (customers : List CustomerData) : List CustomerData :=
  customers.filter fun c =>
    decide (c.accountAge < 36 ∧ c.annualIncome > 40000 ∧ c.annualIncome < 100000)

/-- The high-risk filter: `c.riskScore > 0.7`. -/
def highRiskCustomersOf (customers : List CustomerData) : List CustomerData :=
  customers.filter fun c => decide (c.riskScore > 0.7)

/-- The high-value segment pushed unconditionally by the fallback. -/
def highValueSegmentOf (customers : List CustomerData) : SegmentationResult where
  segmentName := "High Value Customers"
  customers := (highValueCustomersOf customers).map (·.id)
  characteristics := mkCharacteristics (highValueCustomersOf customers)
  insights := ["Premium banking services and investment products",
    "Dedicated relationship managers",
    "Exclusive rewards and benefits programs"]

/-- The young-professionals segment pushed when the filter is non-empty. -/
def youngProfSegmentOf (customers : List CustomerData) : SegmentationResult where
  segmentName := "Young Professionals"
  customers := (youngProfessionalsOf customers).map (·.id)
  characteristics := mkCharacteristics (youngProfessionalsOf customers)
  insights := ["Mobile-first banking solutions",
    "Student loan and mortgage products",
    "Financial planning and investment education"]

/-- The high-risk segment pushed when the filter is non-empty. -/
def highRiskSegmentOf (customers : List CustomerData) : SegmentationResult where
  segmentName := "High Risk Customers"
  customers := (highRiskCustomersOf customers).map (·.id)
  characteristics := mkCharacteristics (highRiskCustomersOf customers)
  insights := ["Enhanced monitoring and fraud detection",
    "Risk mitigation strategies",
    "Potential account restrictions or closures"]

/-- `MLEngine.fallbackSegmentation`: the high-value segment is always
pushed; the young-professionals and high-risk segments only when their
filters produce at least one customer. -/
def fallbackSegmentation (customers : List CustomerData) :
    List SegmentationResult :=
  [highValueSegmentOf customers]
    ++ (if (youngProfessionalsOf customers).length > 0
          then [youngProfSegmentOf customers] else [])
    ++ (if (highRiskCustomersOf customers).length > 0
          then [highRiskSegmentOf customers] else [])

/-- Shape of one segment in the structured AI segmentation response. -/
structure AISegment where
  segmentName : String
  customerIds : List String
  characteristics : SegmentCharacteristics
  insights : List String
deriving DecidableEq, Repr

/-- `MLEngine.performCustomerSegmentation`.  The `blink.ai.generateObject`
round trip is the `ai` input: `Except.error` is the call throwing (caught
by the try/catch, which falls back to the rule-based segmentation), and
`Except.ok none` is a response whose `segments` field is absent, in which
case the result loop never runs. -/
def performCustomerSegmentation (ai : Except Unit (Option (List AISegment)))
    (customers : List CustomerData) : List SegmentationResult :=
  if customers.length = 0 then []
  else
    match ai with
    | .ok (some segs) =>
        segs.map fun s =>
          { segmentName := s.segmentName
            customers := s.customerIds
            characteristics := s.characteristics
            insights := s.insights }
    | .ok none => []
    | .error _ => fallbackSegmentation customers

/-- `MLEngine.generateCustomerInsights`: returns `object.insights || []`,
and `[]` when the AI call throws.  The insight payload is opaque to the
claims, hence the type parameter. -/
def generateCustomerInsights {I : Type} (ai : Except Unit (Option (List I))) :
    List I :=
  match ai with
  | .ok (some insights) => insights
  | .ok none => []
  | .error _ => []

/-- `MLEngine.generateProductRecommendations`: returns
`object.recommendations || []`, and `[]` when the AI call throws. -/
def generateProductRecommendations {R : Type}
    (ai : Except Unit (Option (List R))) : List R :=
  match ai with
  | .ok (some recs) => recs
  | .ok none => []
  | .error _ => []

/-- Result record of `MLEngine.assessCustomerRisk`. -/
structure RiskAssessmentResult where
  riskScore : ℚ
  riskLevel : String
  factors : List String
  recommendations : List String
deriving DecidableEq, Repr

/-- The structured AI risk response; every schema field may be absent. -/
structure AIRiskResponse where
  riskScore : Option ℚ
  riskLevel : Option String
  factors : Option (List String)
  recommendations : Option (List String)
deriving DecidableEq, Repr

/-- JavaScript `x || d` on an optional number: undefined and 0 are falsy. -/
def orFalsyNum (x : Option ℚ) (d : ℚ) : ℚ :=
  match x with
  | none => d
  | some v => if v = 0 then d else v

/-- JavaScript `x || d` on an optional string: undefined and "" are falsy. -/
def orFalsyStr (x : Option String) (d : String) : String :=
  match x with
  | none => d
  | some s => if s = "" then d else s

/-- `MLEngine.assessCustomerRisk`.  On a successful AI round trip the
response is normalised (`Math.max(0, Math.min(1, ...))`, `|| ` defaults);
when the call throws, the catch branch builds a threshold-based assessment
from the customer's existing risk score.  (`object.factors || []` keeps an
empty array since arrays are truthy, so it only replaces an absent field.) -/
def assessCustomerRisk (ai : Except Unit AIRiskResponse)
    (customerData : CustomerData) : RiskAssessmentResult :=
  match ai with
  | .ok object =>
      { riskScore := max 0 (min 1 (orFalsyNum object.riskScore customerData.riskScore))
        riskLevel := orFalsyStr object.riskLevel "medium"
        factors := object.factors.getD []
        recommendations := object.recommendations.getD [] }
  | .error _ =>
      { riskScore := customerData.riskScore
        riskLevel :=
          if customerData.riskScore > 0.7 then "high"
          else if customerData.riskScore > 0.4 then "medium" else "low"
        factors := ["Unable to assess risk factors"]
        recommendations := ["Manual review recommended"] }

/-- `DataSeeder.generateCreditScore`.  The draw
`(Math.random() - 0.5) * 100` is the `noise` parameter (it ranges over
[-50, 50)). -/
def generateCreditScore (income : ℚ) (noise : ℚ) : ℤ :=
  let baseScore := min 850 (580 + income / 1000)
  max 300 (min 850 ⌊baseScore + noise⌋)

/-- `DataSeeder.calculateRiskScore`.  The draw
`(Math.random() - 0.5) * 0.2` is the `noise` parameter (it ranges over
[-0.1, 0.1)). -/
def calculateRiskScore (creditScore balance transactionCount : ℚ)
    (noise : ℚ) : ℚ :=
  let creditRisk := (850 - creditScore) / 550
  let balanceRisk : ℚ :=
    if balance < 1000 then 0.3 else if balance < 5000 then 0.1 else 0
  let activityRisk : ℚ :=
    if transactionCount < 5 then 0.2
    else if transactionCount > 100 then 0.1 else 0
  let totalRisk := creditRisk * 0.6 + balanceRisk * 0.3 + activityRisk * 0.1
  max 0 (min 1 (totalRisk + noise))

/-- `DataSeeder.calculateCLV`.  The draw `2 + Math.random() * 3` is the
`factor` parameter (it ranges over [2, 5)). -/
def calculateCLV (balance income accountAge : ℚ) (factor : ℚ) : ℤ :=
  let monthlyRevenue := balance * 0.001 + income * 0.0001
  let retentionMultiplier := min 5 (accountAge / 12)
  ⌊monthlyRevenue * 12 * retentionMultiplier * factor⌋

/-- `DataSeeder.chunkArray`: slices of `chunkSize` consecutive elements.
The source loop advances `i` by `chunkSize`, so it never terminates when
`chunkSize = 0`; that case (excluded by the claim's hypothesis) is mapped
to `[]` here to keep the function total. -/
def chunkArray {T : Type} : List T → ℕ → List (List T)
  | [], _ => []
  | a :: rest, chunkSize =>
      if chunkSize = 0 then []
      else
        (a :: rest).take chunkSize
          :: chunkArray ((a :: rest).drop chunkSize) chunkSize
termination_by l _ => l.length
decreasing_by simp only [List.length_drop, List.length_cons]; omega

/-- The filter of `runRiskAnalysis` on the RiskAssessment page:
`c.riskScore > 0.6 || c.accountBalance < 1000`. -/
def highRiskFilter (customers : List CustomerData) : List CustomerData :=
  customers.filter fun c => decide (c.riskScore > 0.6 ∨ c.accountBalance < 1000)

/-- The customers the sequential for-loop of `runRiskAnalysis` iterates
over: `highRiskCustomers.slice(0, 20)`. -/
def riskAnalysisBatch (customers : List CustomerData) : List CustomerData :=
  (highRiskFilter customers).take 20

/-- A sample customer record used to instantiate universally quantified
theorems at concrete inputs. -/
def sampleCustomer (i : String) (bal inc risk age : ℚ) : CustomerData where
  id := i
  accountBalance := bal
  creditScore := 700
  annualIncome := inc
  transactionCount := 50
  avgMonthlyBalance := bal
  riskScore := risk
  customerLifetimeValue := 1000
  accountAge := age
  lastTransactionDays := 5

/-- C3: for every creditScore, balance and transactionCount, and every
noise in [-0.1, 0.1], calculateRiskScore is the weighted blend
0.6·(850−credit)/550 + 0.3·balance-tier + 0.1·activity-tier plus the
noise, clamped to [0, 1], and its value lies within [0, 1]. -/
theorem calculateRiskScore_spec (creditScore balance transactionCount noise : ℚ)
    (h1 : -(1/10) ≤ noise) (h2 : noise ≤ 1/10) :
    calculateRiskScore creditScore balance transactionCount noise =
      max 0 (min 1
        (0.6 * ((850 - creditScore) / 550)
          + 0.3 * (if balance < 1000 then (0.3 : ℚ)
              else if balance < 5000 then 0.1 else 0)
          + 0.1 * (if transactionCount < 5 then (0.2 : ℚ)
              else if transactionCount > 100 then 0.1 else 0)
          + noise))
    ∧ 0 ≤ calculateRiskScore creditScore balance transactionCount noise
    ∧ calculateRiskScore creditScore balance transactionCount noise ≤ 1 := by
  simp only [calculateRiskScore]
  refine ⟨?_, le_max_left _ _, max_le (by norm_num) (min_le_left _ _)⟩
  congr 2
  ring

/-- Witness for C3 at credit 700, balance 2000, activity 50, noise 0. -/
theorem calculateRiskScore_spec_witness :
    (-(1/10) : ℚ) ≤ 0 ∧ (0 : ℚ) ≤ 1/10
    ∧ 0 ≤ calculateRiskScore 700 2000 50 0
    ∧ calculateRiskScore 700 2000 50 0 ≤ 1 :=
  ⟨by norm_num, by norm_num,
    (calculateRiskScore_spec 700 2000 50 0 (by norm_num) (by norm_num)).2.1,
    (calculateRiskScore_spec 700 2000 50 0 (by norm_num) (by norm_num)).2.2⟩

/-- Modelled from the spec's words, for comparison with the source: "base
= min(850, 580 + income/1000), plus uniform noise in [-50, +50], clamped
to [300, 850]" — a clamp of the exact sum, with no rounding step. -/
def creditScoreSpecFormula (income noise : ℚ) : ℚ :=
  max 300 (min 850 (min 850 (580 + income / 1000) + noise))

/-- C4 counterexample: at income 0 and noise 1/2 the source rounds the
base-plus-noise sum down to 580, while the claimed formula yields 580.5:
the claim's description omits the `Math.floor` step. -/
theorem generateCreditScore_counterexample :
    ((generateCreditScore 0 (1/2) : ℚ) ≠ creditScoreSpecFormula 0 (1/2)) := by
  norm_num [generateCreditScore, creditScoreSpecFormula]

/-- C4 (amended): for every income and noise in [-50, 50],
generateCreditScore is the floor of min(850, 580 + income/1000) plus the
noise, clamped to [300, 850], and its value lies within [300, 850]. -/
theorem generateCreditScore_spec (income noise : ℚ)
    (h1 : -50 ≤ noise) (h2 : noise ≤ 50) :
    generateCreditScore income noise =
      max 300 (min 850 ⌊min 850 (580 + income / 1000) + noise⌋)
    ∧ 300 ≤ generateCreditScore income noise
    ∧ generateCreditScore income noise ≤ 850 := by
  simp only [generateCreditScore]
  exact ⟨trivial, le_max_left _ _, max_le (by norm_num) (min_le_left _ _)⟩

/-- Witness for the amended C4 at income 100000 and noise 0. -/
theorem generateCreditScore_spec_witness :
    (-50 : ℚ) ≤ 0 ∧ (0 : ℚ) ≤ 50
    ∧ 300 ≤ generateCreditScore 100000 0
    ∧ generateCreditScore 100000 0 ≤ 850 :=
  ⟨by norm_num, by norm_num,
    (generateCreditScore_spec 100000 0 (by norm_num) (by norm_num)).2.1,
    (generateCreditScore_spec 100000 0 (by norm_num) (by norm_num)).2.2⟩

/-- C5: for non-negative balance, income and account age and any factor
in [2, 5], calculateCLV is the floor of (balance·0.001 + income·0.0001)
· 12 · min(5, accountAge/12) · factor, and is non-negative. -/
theorem calculateCLV_spec (balance income accountAge factor : ℚ)
    (hb : 0 ≤ balance) (hi : 0 ≤ income) (ha : 0 ≤ accountAge)
    (hf1 : 2 ≤ factor) (hf2 : factor ≤ 5) :
    calculateCLV balance income accountAge factor =
      ⌊(balance * 0.001 + income * 0.0001) * 12
          * min 5 (accountAge / 12) * factor⌋
    ∧ 0 ≤ calculateCLV balance income accountAge factor := by
  simp only [calculateCLV]
  refine ⟨trivial, Int.floor_nonneg.mpr ?_⟩
  have hrev : (0 : ℚ) ≤ balance * 0.001 + income * 0.0001 :=
    add_nonneg (mul_nonneg hb (by norm_num)) (mul_nonneg hi (by norm_num))
  have hret : (0 : ℚ) ≤ min 5 (accountAge / 12) :=
    le_min (by norm_num) (div_nonneg ha (by norm_num))
  exact mul_nonneg (mul_nonneg (mul_nonneg hrev (by norm_num)) hret)
    (le_trans (by norm_num) hf1)

/-- Witness for C5 at balance 10000, income 60000, account age 24,
factor 3. -/
theorem calculateCLV_spec_witness :
    (0 : ℚ) ≤ 10000 ∧ (0 : ℚ) ≤ 60000 ∧ (0 : ℚ) ≤ 24
    ∧ (2 : ℚ) ≤ 3 ∧ (3 : ℚ) ≤ 5
    ∧ 0 ≤ calculateCLV 10000 60000 24 3 :=
  ⟨by norm_num, by norm_num, by norm_num, by norm_num, by norm_num,
    (calculateCLV_spec 10000 60000 24 3 (by norm_num) (by norm_num)
      (by norm_num) (by norm_num) (by norm_num)).2⟩

/-- C6: segmentation of an empty customer list is the empty result list,
whatever the AI round trip would do (the guard returns before it). -/
theorem performCustomerSegmentation_empty
    (ai : Except Unit (Option (List AISegment))) :
    performCustomerSegmentation ai [] = [] := rfl

/-- C8: when the hosted AI call throws, each AI-backed operation returns
its fallback: the rule-based segmentation for a non-empty input, the
empty list for insights and product recommendations, and a
threshold-based assessment built from the customer's stored risk score. -/
theorem mlEngine_error_fallback {I R : Type} (customers : List CustomerData)
    (h : customers ≠ []) (c : CustomerData) :
    performCustomerSegmentation (.error ()) customers
        = fallbackSegmentation customers
    ∧ generateCustomerInsights (.error ()) = ([] : List I)
    ∧ generateProductRecommendations (.error ()) = ([] : List R)
    ∧ assessCustomerRisk (.error ()) c =
        { riskScore := c.riskScore
          riskLevel :=
            if c.riskScore > 0.7 then "high"
            else if c.riskScore > 0.4 then "medium" else "low"
          factors := ["Unable to assess risk factors"]
          recommendations := ["Manual review recommended"] } := by
  refine ⟨?_, rfl, rfl, rfl⟩
  simp only [performCustomerSegmentation,
    if_neg (fun hlen => h (List.length_eq_zero.mp hlen))]

/-- Witness for C8 on a one-customer list. -/
theorem mlEngine_error_fallback_witness :
    ([sampleCustomer "w8" 5000 50000 0.5 24] : List CustomerData) ≠ []
    ∧ performCustomerSegmentation (.error ())
        [sampleCustomer "w8" 5000 50000 0.5 24]
        = fallbackSegmentation [sampleCustomer "w8" 5000 50000 0.5 24]
    ∧ assessCustomerRisk (.error ()) (sampleCustomer "w8" 5000 50000 0.5 24) =
        { riskScore := (sampleCustomer "w8" 5000 50000 0.5 24).riskScore
          riskLevel :=
            if (sampleCustomer "w8" 5000 50000 0.5 24).riskScore > 0.7 then "high"
            else if (sampleCustomer "w8" 5000 50000 0.5 24).riskScore > 0.4
              then "medium" else "low"
          factors := ["Unable to assess risk factors"]
          recommendations := ["Manual review recommended"] } :=
  ⟨List.cons_ne_nil _ _,
    (mlEngine_error_fallback (I := ℕ) (R := ℕ) _ (List.cons_ne_nil _ _)
      (sampleCustomer "w8" 5000 50000 0.5 24)).1,
    (mlEngine_error_fallback (I := ℕ) (R := ℕ)
      [sampleCustomer "w8" 5000 50000 0.5 24] (List.cons_ne_nil _ _)
      (sampleCustomer "w8" 5000 50000 0.5 24)).2.2.2⟩

/-- C9: one batch risk-analysis run assesses at most 20 customers, and
they are an initial run of the filtered high-risk list. -/
theorem riskAnalysisBatch_cap (customers : List CustomerData) :
    (riskAnalysisBatch customers).length ≤ 20
    ∧ ∃ rest, highRiskFilter customers = riskAnalysisBatch customers ++ rest := by
  constructor
  · exact List.length_take_le 20 (highRiskFilter customers)
  · exact ⟨(highRiskFilter customers).drop 20,
      (List.take_append_drop 20 (highRiskFilter customers)).symm⟩

/-- Unfolding equation of chunkArray on a non-empty list and a positive
chunk size. -/
theorem chunkArray_cons {T : Type} (a : T) (rest : List T) (chunkSize : ℕ)
    (hk : chunkSize ≠ 0) :
    chunkArray (a :: rest) chunkSize =
      (a :: rest).take chunkSize
        :: chunkArray ((a :: rest).drop chunkSize) chunkSize := by
  rw [chunkArray]
  simp [hk]

/-- Unfolding equation of chunkArray on the empty list. -/
theorem chunkArray_nil {T : Type} (chunkSize : ℕ) :
    chunkArray ([] : List T) chunkSize = [] := by
  rw [chunkArray]

/-- C10: for every list and positive chunk size, concatenating the chunks
of chunkArray in order restores the original list, and every chunk has
length at most the chunk size. -/
theorem chunkArray_spec {T : Type} (l : List T) (chunkSize : ℕ)
    (hk : 0 < chunkSize) :
    (chunkArray l chunkSize).flatten = l
    ∧ ∀ chunk ∈ chunkArray l chunkSize, chunk.length ≤ chunkSize := by
  have main : ∀ n (l : List T), l.length ≤ n →
      (chunkArray l chunkSize).flatten = l
      ∧ ∀ chunk ∈ chunkArray l chunkSize, chunk.length ≤ chunkSize := by
    intro n
    induction n with
    | zero =>
      intro l hl
      have hnil : l = [] := List.length_eq_zero.mp (Nat.le_zero.mp hl)
      subst hnil
      simp [chunkArray_nil]
    | succ n ih =>
      intro l hl
      match l with
      | [] => simp [chunkArray_nil]
      | a :: rest =>
        rw [chunkArray_cons a rest chunkSize (Nat.pos_iff_ne_zero.mp hk)]
        have hdrop : ((a :: rest).drop chunkSize).length ≤ n := by
          simp only [List.length_drop, List.length_cons]
          simp only [List.length_cons] at hl
          omega
        obtain ⟨ih1, ih2⟩ := ih ((a :: rest).drop chunkSize) hdrop
        constructor
        · rw [List.flatten_cons, ih1, List.take_append_drop]
        · intro chunk hc
          rcases List.mem_cons.mp hc with hchunk | hchunk
          · subst hchunk
            exact List.length_take_le _ _
          · exact ih2 chunk hchunk
  exact main l.length l le_rfl

/-- Witness for C10 on a five-element list with chunk size 2. -/
theorem chunkArray_spec_witness :
    0 < 2 ∧ (chunkArray [1, 2, 3, 4, 5] 2).flatten = [1, 2, 3, 4, 5] :=
  ⟨by norm_num, (chunkArray_spec [1, 2, 3, 4, 5] 2 (by norm_num)).1⟩

/-- Membership in the fallback result: the high-value segment is always
there, the other two exactly when their filters are non-empty. -/
theorem mem_fallbackSegmentation (cs : List CustomerData)
    (seg : SegmentationResult) :
    seg ∈ fallbackSegmentation cs ↔
      seg = highValueSegmentOf cs
      ∨ (youngProfessionalsOf cs ≠ [] ∧ seg = youngProfSegmentOf cs)
      ∨ (highRiskCustomersOf cs ≠ [] ∧ seg = highRiskSegmentOf cs) := by
  by_cases h1 : youngProfessionalsOf cs = []
    <;> by_cases h2 : highRiskCustomersOf cs = []
  · simp [fallbackSegmentation, h1, h2]
  · simp [fallbackSegmentation, h1, h2, List.length_pos.mpr h2]
  · simp [fallbackSegmentation, h1, h2, List.length_pos.mpr h1]
  · simp [fallbackSegmentation, h1, h2, List.length_pos.mpr h1,
      List.length_pos.mpr h2]

/-- The boundary customer (income exactly 40000) qualifies for no
fallback segment beyond high-value: both filters reject it. -/
theorem yp_boundary_empty :
    youngProfessionalsOf [sampleCustomer "c2" 500 40000 0 12] = [] := by
  norm_num [youngProfessionalsOf, sampleCustomer, List.filter_cons]

/-- The boundary customer has risk score 0, so the high-risk filter is
empty on it. -/
theorem hr_boundary_empty :
    highRiskCustomersOf [sampleCustomer "c2" 500 40000 0 12] = [] := by
  norm_num [highRiskCustomersOf, sampleCustomer, List.filter_cons]

/-- C2 counterexample: a customer with annual income exactly 40000 and a
young account satisfies the claim's qualifying condition
(40000 ≤ income < 100000, accountAge < 36), yet the fallback result has
no young-professionals segment at all: the source filter is strict at
40000 (`annualIncome > 40000`). -/
theorem youngProf_boundary_counterexample :
    ((sampleCustomer "c2" 500 40000 0 12).accountAge < 36
      ∧ 40000 ≤ (sampleCustomer "c2" 500 40000 0 12).annualIncome
      ∧ (sampleCustomer "c2" 500 40000 0 12).annualIncome < 100000)
    ∧ ¬ ∃ seg ∈ fallbackSegmentation [sampleCustomer "c2" 500 40000 0 12],
        seg.segmentName = "Young Professionals" ∧ "c2" ∈ seg.customers := by
  constructor
  · exact ⟨by norm_num [sampleCustomer], by norm_num [sampleCustomer],
      by norm_num [sampleCustomer]⟩
  · rintro ⟨seg, hmem, hname, -⟩
    rcases (mem_fallbackSegmentation _ seg).mp hmem with h | ⟨hne, h⟩ | ⟨hne, h⟩
    · subst h
      simp [highValueSegmentOf] at hname
    · exact hne yp_boundary_empty
    · exact hne hr_boundary_empty

/-- C2 (amended): the young-professionals segment of the fallback lists
exactly the customers with accountAge < 36 and 40000 < income < 100000
(strict at 40000), in input order; it is present whenever at least one
customer qualifies, and any segment of that name lists exactly those
customers. -/
theorem fallbackSegmentation_youngProf (cs : List CustomerData) :
    (∀ seg ∈ fallbackSegmentation cs,
      seg.segmentName = "Young Professionals" →
        seg.customers = ((cs.filter fun c =>
          decide (c.accountAge < 36 ∧ c.annualIncome > 40000
            ∧ c.annualIncome < 100000)).map (·.id)))
    ∧ ((cs.filter fun c =>
          decide (c.accountAge < 36 ∧ c.annualIncome > 40000
            ∧ c.annualIncome < 100000)) ≠ [] →
        ∃ seg ∈ fallbackSegmentation cs,
          seg.segmentName = "Young Professionals"
          ∧ seg.customers = ((cs.filter fun c =>
              decide (c.accountAge < 36 ∧ c.annualIncome > 40000
                ∧ c.annualIncome < 100000)).map (·.id))) := by
  constructor
  · intro seg hs hname
    rcases (mem_fallbackSegmentation cs seg).mp hs with h | ⟨_, h⟩ | ⟨_, h⟩
    · subst h
      simp only [highValueSegmentOf] at hname
      simp at hname
    · subst h
      rfl
    · subst h
      simp only [highRiskSegmentOf] at hname
      simp at hname
  · intro hne
    exact ⟨youngProfSegmentOf cs,
      (mem_fallbackSegmentation cs _).mpr (Or.inr (Or.inl ⟨hne, rfl⟩)),
      rfl, rfl⟩

/-- Witness for the amended C2 on a one-customer list whose customer
qualifies (income 50000, account age 12 months). -/
theorem fallbackSegmentation_youngProf_witness :
    (([sampleCustomer "w2" 500 50000 0 12].filter fun c =>
        decide (c.accountAge < 36 ∧ c.annualIncome > 40000
          ∧ c.annualIncome < 100000)) ≠ [])
    ∧ ∃ seg ∈ fallbackSegmentation [sampleCustomer "w2" 500 50000 0 12],
        seg.segmentName = "Young Professionals"
        ∧ seg.customers = (([sampleCustomer "w2" 500 50000 0 12].filter fun c =>
            decide (c.accountAge < 36 ∧ c.annualIncome > 40000
              ∧ c.annualIncome < 100000)).map (·.id)) :=
  ⟨by norm_num [sampleCustomer, List.filter_cons],
    (fallbackSegmentation_youngProf _).2
      (by norm_num [sampleCustomer, List.filter_cons])⟩

/-- C7: the fallback omits the young-professionals and high-risk segments
whenever their qualifying sets are empty, while the high-value segment is
present whenever the input is non-empty. -/
theorem fallbackSegmentation_presence (cs : List CustomerData) :
    (youngProfessionalsOf cs = [] →
      ∀ seg ∈ fallbackSegmentation cs,
        seg.segmentName ≠ "Young Professionals")
    ∧ (highRiskCustomersOf cs = [] →
      ∀ seg ∈ fallbackSegmentation cs,
        seg.segmentName ≠ "High Risk Customers")
    ∧ (cs ≠ [] →
      ∃ seg ∈ fallbackSegmentation cs,
        seg.segmentName = "High Value Customers") := by
  refine ⟨?_, ?_, ?_⟩
  · intro hyp seg hs
    rcases (mem_fallbackSegmentation cs seg).mp hs with h | ⟨hne, h⟩ | ⟨_, h⟩
    · subst h
      simp [highValueSegmentOf]
    · exact absurd hyp hne
    · subst h
      simp [highRiskSegmentOf]
  · intro hyp seg hs
    rcases (mem_fallbackSegmentation cs seg).mp hs with h | ⟨_, h⟩ | ⟨hne, h⟩
    · subst h
      simp [highValueSegmentOf]
    · subst h
      simp [youngProfSegmentOf]
    · exact absurd hyp hne
  · intro _
    exact ⟨highValueSegmentOf cs,
      (mem_fallbackSegmentation cs _).mpr (Or.inl rfl), rfl⟩

/-- The C7 witness customer (income 200000, risk 0, account age 60)
matches neither the young-professionals filter nor the high-risk one. -/
theorem yp_w7_empty :
    youngProfessionalsOf [sampleCustomer "w7" 100 200000 0 60] = [] := by
  norm_num [youngProfessionalsOf, sampleCustomer, List.filter_cons]

/-- Witness for C7 on a one-customer list with no qualifying young
professional or high-risk customer. -/
theorem fallbackSegmentation_presence_witness :
    youngProfessionalsOf [sampleCustomer "w7" 100 200000 0 60] = []
    ∧ (∀ seg ∈ fallbackSegmentation [sampleCustomer "w7" 100 200000 0 60],
        seg.segmentName ≠ "Young Professionals")
    ∧ ([sampleCustomer "w7" 100 200000 0 60] : List CustomerData) ≠ []
    ∧ ∃ seg ∈ fallbackSegmentation [sampleCustomer "w7" 100 200000 0 60],
        seg.segmentName = "High Value Customers" :=
  ⟨yp_w7_empty,
    (fallbackSegmentation_presence _).1 yp_w7_empty,
    List.cons_ne_nil _ _,
    (fallbackSegmentation_presence _).2.2 (List.cons_ne_nil _ _)⟩

/-- ⌈0.2·n⌉ in natural-number form: (n + 4) / 5. -/
theorem natCeil_fifth (n : ℕ) : ⌈(0.2 : ℚ) * n⌉₊ = (n + 4) / 5 := by
  have h02 : (0.2 : ℚ) * n = (n : ℚ) / 5 := by
    rw [show (0.2 : ℚ) = 1 / 5 from by norm_num]
    ring
  rcases Nat.eq_zero_or_pos n with h0 | hp
  · subst h0
    norm_num
  · have hk1 : 1 ≤ (n + 4) / 5 := by omega
    rw [h02, Nat.ceil_eq_iff (by omega : (n + 4) / 5 ≠ 0)]
    have f1 : ((n + 4) / 5 - 1) * 5 < n := by omega
    have f2 : n ≤ ((n + 4) / 5) * 5 := by omega
    constructor
    · rw [lt_div_iff₀ (by norm_num : (0 : ℚ) < 5)]
      exact_mod_cast f1
    · rw [div_le_iff₀ (by norm_num : (0 : ℚ) < 5)]
      exact_mod_cast f2

/-- The balance-sorted index-value list is a permutation of the
enumerated input. -/
theorem sortedEnum_perm (cs : List CustomerData) :
    ((cs.enum).insertionSort balanceBefore).Perm cs.enum :=
  List.perm_insertionSort balanceBefore cs.enum

/-- The balance-sorted index-value list has the input's length. -/
theorem sortedEnum_length (cs : List CustomerData) :
    ((cs.enum).insertionSort balanceBefore).length = cs.length := by
  rw [(sortedEnum_perm cs).length_eq, List.enum_length]

/-- C1: for every non-empty input of n customers, the fallback's first
segment is the high-value one; its member list has exactly ⌈0.2·n⌉
entries, and those members are the ⌈0.2·n⌉ customers with the highest
balances with ties broken by original position: the result splits the
indexed input into the selected part p (whose ids the segment lists) and
the rest q, and every selected record beats every unselected one — a
strictly higher balance, or an equal balance and a strictly earlier
original position. -/
theorem fallbackSegmentation_highValue (cs : List CustomerData)
    (h : cs ≠ []) :
    ∃ seg rest, fallbackSegmentation cs = seg :: rest
      ∧ seg.segmentName = "High Value Customers"
      ∧ seg.customers.length = ⌈(0.2 : ℚ) * cs.length⌉₊
      ∧ ∃ p q : List (ℕ × CustomerData),
          (p ++ q).Perm cs.enum
          ∧ seg.customers = p.map (fun x => x.2.id)
          ∧ ∀ a ∈ p, ∀ b ∈ q,
              b.2.accountBalance < a.2.accountBalance
              ∨ (a.2.accountBalance = b.2.accountBalance ∧ a.1 < b.1) := by
  have hceil : ⌈(0.2 : ℚ) * cs.length⌉₊ = (cs.length + 4) / 5 :=
    natCeil_fifth cs.length
  have hkn : (cs.length + 4) / 5 ≤ cs.length := by
    rcases Nat.eq_zero_or_pos cs.length with h0 | hp
    · omega
    · omega
  refine ⟨highValueSegmentOf cs, _, rfl, rfl, ?_, ?_⟩
  · -- the member count
    rw [hceil]
    simp only [highValueSegmentOf, highValueCustomersOf, sortedByBalance,
      highValueCount, List.length_map, List.length_take]
    rw [(sortedEnum_perm cs).length_eq, List.enum_length]
    omega
  · -- the members are the stable top fifth
    refine ⟨((cs.enum).insertionSort balanceBefore).take ((cs.length + 4) / 5),
      ((cs.enum).insertionSort balanceBefore).drop ((cs.length + 4) / 5),
      ?_, ?_, ?_⟩
    · rw [List.take_append_drop]
      exact sortedEnum_perm cs
    · show (highValueCustomersOf cs).map (fun c => c.id) = _
      simp only [highValueCustomersOf, sortedByBalance, highValueCount]
      rw [← List.map_take, List.map_map]
      rfl
    · intro a ha b hb
      have hpw : List.Pairwise balanceBefore
          ((cs.enum).insertionSort balanceBefore) :=
        List.sorted_insertionSort balanceBefore cs.enum
      rw [← List.take_append_drop ((cs.length + 4) / 5)
        ((cs.enum).insertionSort balanceBefore)] at hpw
      have hdom := (List.pairwise_append.mp hpw).2.2 a ha b hb
      have hnodup : (((cs.enum).insertionSort balanceBefore).map
          Prod.fst).Nodup :=
        ((sortedEnum_perm cs).map Prod.fst).nodup_iff.mpr
          (List.nodup_enum_map_fst cs)
      rw [← List.take_append_drop ((cs.length + 4) / 5)
        ((cs.enum).insertionSort balanceBefore), List.map_append] at hnodup
      have hdisj := (List.nodup_append.mp hnodup).2.2
      have hne : a.1 ≠ b.1 := fun he =>
        hdisj (List.mem_map_of_mem Prod.fst ha)
          (he ▸ List.mem_map_of_mem Prod.fst hb)
      rcases hdom with hlt | ⟨heq, hle⟩
      · exact Or.inl hlt
      · exact Or.inr ⟨heq, lt_of_le_of_ne hle hne⟩

/-- Witness for C1 on a concrete two-customer list. -/
theorem fallbackSegmentation_highValue_witness :
    ([sampleCustomer "a" 9000 50000 0 12,
        sampleCustomer "b" 100 30000 0 50] : List CustomerData) ≠ []
    ∧ ∃ seg rest,
        fallbackSegmentation [sampleCustomer "a" 9000 50000 0 12,
            sampleCustomer "b" 100 30000 0 50] = seg :: rest
        ∧ seg.segmentName = "High Value Customers"
        ∧ seg.customers.length =
            ⌈(0.2 : ℚ) * (([sampleCustomer "a" 9000 50000 0 12,
                sampleCustomer "b" 100 30000 0 50] : List CustomerData)).length⌉₊
        ∧ ∃ p q : List (ℕ × CustomerData),
            (p ++ q).Perm ([sampleCustomer "a" 9000 50000 0 12,
                sampleCustomer "b" 100 30000 0 50] : List CustomerData).enum
            ∧ seg.customers = p.map (fun x => x.2.id)
            ∧ ∀ a ∈ p, ∀ b ∈ q,
                b.2.accountBalance < a.2.accountBalance
                ∨ (a.2.accountBalance = b.2.accountBalance ∧ a.1 < b.1) :=
  ⟨List.cons_ne_nil _ _,
    fallbackSegmentation_highValue _ (List.cons_ne_nil _ _)⟩

end BankIntel
